import Mathlib

/-!
Verification of the bulk image-processing pipeline of `src/pages/ImageResizer.tsx`
(the `ImageResizer` React component): image source registry (`loadImage`,
`resetImages`), resize configuration (`handleWidthChange`, `handleHeightChange`,
the quality range input), the per-image transcoder (`processImage`) and the
batch processor (`processAllImages`).

The component state (`useState` hooks) is embedded as the structure
`ResizerState`.  JavaScript numbers that the code treats as integral (pixel
dimensions, quality) are embedded as `Int`; the intermediate floating-point
aspect-ratio arithmetic of `Math.round(width * aspectRatio)` is embedded over
`ℚ` with `Math.round x = ⌊x + 1/2⌋`.  Browser effects are parameters:
`canvas.toDataURL` is a function `String → ℚ → Canvas → Option String`
(`none` means the call throws), image decode success (`img.onload` versus
`img.onerror`) is a predicate on entries, and promises are `Option (Except ε α)`
(`none` = never settles, `some (.error e)` = rejected, `some (.ok a)` = resolved).
-/

namespace ImageResizer

instance {ε α : Type} [DecidableEq ε] [DecidableEq α] : DecidableEq (Except ε α) := fun a b =>
  match a, b with
  | Except.error e, Except.error e' =>
    if h : e = e' then Decidable.isTrue (by rw [h]) else
      Decidable.isFalse (by intro hc; injection hc; exact h (by assumption))
  | Except.error _, Except.ok _ => Decidable.isFalse (by intro hc; exact Except.noConfusion hc)
  | Except.ok _, Except.error _ => Decidable.isFalse (by intro hc; exact Except.noConfusion hc)
  | Except.ok a', Except.ok b' =>
    if h : a' = b' then Decidable.isTrue (by rw [h]) else
      Decidable.isFalse (by intro hc; injection hc; exact h (by assumption))

/-- The `ImageData` interface of the source: one registry entry.  The `File`
object is represented by its name; `processedUrl` is the optional artifact. -/
structure ImageData where
  id : String
  fileName : String
  url : String
  width : Int
  height : Int
  processedUrl : Option String
deriving DecidableEq

/-- A file handed to `loadImage`: its name, decoded natural size, and whether
the browser can decode it (`img.onload` fires) at all. -/
structure SourceFile where
  name : String
  width : Int
  height : Int
  decodable : Bool
deriving DecidableEq

/-- The `useState` hooks of the `ImageResizer` component that the pipeline
reads and writes. -/
structure ResizerState where
  images : List ImageData
  newWidth : Int
  newHeight : Int
  quality : Int
  outputFormat : String
  maintainAspectRatio : Bool
  processing : Bool
deriving DecidableEq

/-- The initial hook values: `useState<ImageData[]>([])`, `useState(0)`,
`useState(0)`, `useState(90)`, `useState('jpeg')`, `useState(true)`,
`useState(false)`. -/
def initialState : ResizerState :=
  { images := []
    newWidth := 0
    newHeight := 0
    quality := 90
    outputFormat := "jpeg"
    maintainAspectRatio := true
    processing := false }

/-- `Math.round` on an exact rational: round half toward positive infinity,
`Math.round x = ⌊x + 1/2⌋`. -/
def jsRound (x : ℚ) : Int := ⌊x + 1 / 2⌋

/-- `handleWidthChange(width)`: `setNewWidth(width)`; if
`maintainAspectRatio && images.length > 0`, recompute
`setNewHeight(Math.round(width * (firstImage.height / firstImage.width)))`. -/
def handleWidthChange (s : ResizerState) (width : Int) : ResizerState :=
  match s.images with
  | [] => { s with newWidth := width }
  | firstImage :: _ =>
    if s.maintainAspectRatio then
      { s with
          newWidth := width
          newHeight := jsRound ((width : ℚ) * ((firstImage.height : ℚ) / (firstImage.width : ℚ))) }
    else
      { s with newWidth := width }

/-- `handleHeightChange(height)`: symmetric to `handleWidthChange`, recomputing
`setNewWidth(Math.round(height * (firstImage.width / firstImage.height)))`. -/
def handleHeightChange (s : ResizerState) (height : Int) : ResizerState :=
  match s.images with
  | [] => { s with newHeight := height }
  | firstImage :: _ =>
    if s.maintainAspectRatio then
      { s with
          newHeight := height
          newWidth := jsRound ((height : ℚ) * ((firstImage.width : ℚ) / (firstImage.height : ℚ))) }
    else
      { s with newHeight := height }

/-- The quality control is `<input type="range" min="10" max="100" value={quality}
onChange={(e) => setQuality(Number(e.target.value))}>`.  Per the HTML
value-sanitization algorithm for range inputs, the value delivered to the change
handler is clamped to `[min, max]`; the handler stores it unchanged. -/
def setQualityFromRange (s : ResizerState) (q : Int) : ResizerState :=
  { s with quality := max 10 (min 100 q) }

/-- The off-screen raster surface of `processImage`: sized
`canvas.width = newWidth`, `canvas.height = newHeight`, with the entry's source
drawn stretched over the whole surface (`ctx.drawImage(img, 0, 0, newWidth,
newHeight)`). -/
structure Canvas where
  width : Int
  height : Int
  content : String
deriving DecidableEq

/-- The `switch (outputFormat)` of `processImage` choosing the MIME type:
`'png' → 'image/png'`, `'webp' → 'image/webp'`, `'avif' → 'image/avif'`,
default `'image/jpeg'`. -/
def formatOf (outputFormat : String) : String :=
  if outputFormat = "png" then "image/png"
  else if outputFormat = "webp" then "image/webp"
  else if outputFormat = "avif" then "image/avif"
  else "image/jpeg"

/-- The quality argument of `processImage`: `quality / 100`, overridden to `1`
in the `'png'` case of the `switch`. -/
def qualityValueOf (outputFormat : String) (quality : Int) : ℚ :=
  if outputFormat = "png" then 1 else (quality : ℚ) / 100

/-- `processImage(imageData)`: builds a canvas of the configured target size,
draws the (re)decoded source into it, and encodes.  Parameters model the
browser: `td` is `canvas.toDataURL` (`none` = the call throws), `ctxOk` is
whether `canvas.getContext('2d')` is non-null, `loads` is whether the entry's
source (re)decodes (`img.onload` versus `img.onerror`).  The result is the
promise outcome: `some (.ok u)` resolved, `some (.error m)` rejected, `none`
never settles (an exception escaped the `onload` handler: only possible when the
fallback `toDataURL('image/jpeg', …)` itself throws). -/
def processImage (td : String → ℚ → Canvas → Option String) (ctxOk : Bool)
    (loads : ImageData → Bool) (s : ResizerState) (imageData : ImageData) :
    Option (Except String String) :=
  if ctxOk = false then some (Except.error "Canvas context not available")
  else if loads imageData = false then some (Except.error "Failed to load image")
  else
    let canvas : Canvas := { width := s.newWidth, height := s.newHeight, content := imageData.url }
    match td (formatOf s.outputFormat) (qualityValueOf s.outputFormat s.quality) canvas with
    | some processedDataUrl => some (Except.ok processedDataUrl)
    | none =>
      match td "image/jpeg" ((s.quality : ℚ) / 100) canvas with
      | some fallbackDataUrl => some (Except.ok fallbackDataUrl)
      | none => none

/-- `Promise.all` over already-issued promises, joined in issue order: the
first rejection rejects the aggregate, otherwise all values are collected in
order; a never-settling member (before any rejection) leaves the aggregate
pending forever. -/
def promiseAll : List (Option (Except String String)) → Option (Except String (List String))
  | [] => some (Except.ok [])
  | none :: _ => none
  | some (Except.error e) :: _ => some (Except.error e)
  | some (Except.ok u) :: rs =>
    match promiseAll rs with
    | none => none
    | some (Except.error e) => some (Except.error e)
    | some (Except.ok us) => some (Except.ok (u :: us))

/-- Observable outcome of one (settled) run of `processAllImages`:
the final hook state, whether a batch of transcodes was actually fired
(`setProcessing(true)` reached and the `images.map(processImage …)` issued),
and whether the aggregate-failure `alert` was shown. -/
structure BatchRun where
  finalState : ResizerState
  started : Bool
  alerted : Bool
deriving DecidableEq

/-- `processAllImages()`: returns early on an empty registry; otherwise sets
`processing`, awaits `Promise.all(images.map(processImage))`; on success stores
`{...imageData, processedUrl}` for every entry via `setImages`, on rejection
shows a single `alert`; `finally` clears `processing`.  `none` means the
aggregate promise never settles (so neither `catch` nor `finally` runs). -/
def processAllImages (td : String → ℚ → Canvas → Option String) (ctxOk : Bool)
    (loads : ImageData → Bool) (s : ResizerState) : Option BatchRun :=
  if s.images.isEmpty then some { finalState := s, started := false, alerted := false }
  else
    match promiseAll (s.images.map (processImage td ctxOk loads s)) with
    | none => none
    | some (Except.error _) =>
      some { finalState := { s with processing := false }, started := true, alerted := true }
    | some (Except.ok processedUrls) =>
      some { finalState :=
               { s with
                   images := (s.images.zip processedUrls).map
                     (fun p => { p.1 with processedUrl := some p.2 })
                   processing := false }
             started := true
             alerted := false }

/-- The only caller of `processAllImages` in the component: the process button,
rendered with `disabled={images.length === 0 || processing}`.  A click on a
disabled button fires no handler, so the click is a no-op in that case. -/
def processButtonClick (td : String → ℚ → Canvas → Option String) (ctxOk : Bool)
    (loads : ImageData → Bool) (s : ResizerState) : Option BatchRun :=
  if s.images.isEmpty || s.processing then
    some { finalState := s, started := false, alerted := false }
  else processAllImages td ctxOk loads s

/-- The entry `loadImage`'s `onload` handler constructs for a file, given the
allocated `id` and object URL. -/
def mkEntry (id url : String) (f : SourceFile) : ImageData :=
  { id := id
    fileName := f.name
    url := url
    width := f.width
    height := f.height
    processedUrl := none }

/-- `loadImage(file)`: allocates an id and object URL (both passed in here,
abstracting `Date.now() + Math.random()` and `URL.createObjectURL`); on decode
success (`img.onload`) appends the entry via `setImages(prev => [...prev,
imageData])` and, `if (newWidth === 0 && newHeight === 0)`, seeds the target
dimensions from the decoded natural size.  On decode failure nothing happens. -/
def loadImage (id url : String) (f : SourceFile) (s : ResizerState) : ResizerState :=
  if f.decodable then
    let s1 := { s with images := s.images ++ [mkEntry id url f] }
    if s.newWidth = 0 ∧ s.newHeight = 0 then
      { s1 with newWidth := f.width, newHeight := f.height }
    else s1
  else s

/-- `resetImages()`: `setImages([])`; the configuration hooks are untouched. -/
def resetImages (s : ResizerState) : ResizerState :=
  { s with images := [] }

/-- One `loadImage` invocation: the allocated id, the object URL, the file. -/
structure RegisterCall where
  id : String
  url : String
  file : SourceFile
deriving DecidableEq

/-- Registering a sequence of files via `loadImage`, in order. -/
def registerSeq (ps : List RegisterCall) (s : ResizerState) : ResizerState :=
  ps.foldl (fun st p => loadImage p.id p.url p.file st) s

/-- Whether a settled promise outcome is a rejection. -/
def isRejected : Option (Except String String) → Bool
  | some (Except.error _) => true
  | _ => false

/-! ### Concrete fixtures for witnesses and counterexamples -/

/-- A `toDataURL` model that supports every format: the produced data URL
records the MIME type and the drawn content. -/
def tdOk : String → ℚ → Canvas → Option String :=
  fun f _ c => some (f ++ ";" ++ c.content)

/-- A `toDataURL` model whose encoder does not support AVIF (the call throws),
and supports everything else. -/
def tdNoAvif : String → ℚ → Canvas → Option String :=
  fun f _ c => if f = "image/avif" then none else some (f ++ ";" ++ c.content)

/-- A registry entry decoded at natural size 800×600. -/
def refEntry : ImageData :=
  { id := "a", fileName := "ref.png", url := "u1", width := 800, height := 600,
    processedUrl := none }

/-- State with one 800×600 reference image and aspect lock on (the default). -/
def exAspect : ResizerState := { initialState with images := [refEntry] }

/-- State with one image while a previous batch is still in flight
(`processing = true`). -/
def exBatch : ResizerState := { initialState with images := [refEntry], processing := true }

/-- State with a 100×50 target configured and aspect lock off. -/
def exW : ResizerState :=
  { initialState with
      images := [refEntry]
      newWidth := 100
      newHeight := 50
      maintainAspectRatio := false }

/-- State configured for PNG output. -/
def exPng : ResizerState := { initialState with images := [refEntry], outputFormat := "png" }

/-- State configured for AVIF output. -/
def exAvif : ResizerState := { initialState with images := [refEntry], outputFormat := "avif" }

/-- Three registered entries, all loadable. -/
def exSuccess : ResizerState :=
  { initialState with
      images := [refEntry,
                 { refEntry with id := "b", url := "u2" },
                 { refEntry with id := "c", url := "u3" }] }

/-- Three registered entries of which the middle one (`url = "bad"`) fails to
re-decode at transcode time. -/
def exThree : ResizerState :=
  { initialState with
      images := [refEntry,
                 { refEntry with id := "b", url := "bad" },
                 { refEntry with id := "c", url := "u3" }] }

/-- A decodable 800×600 file. -/
def fA : SourceFile := { name := "a.png", width := 800, height := 600, decodable := true }

/-- A decodable 400×300 file. -/
def fB : SourceFile := { name := "b.png", width := 400, height := 300, decodable := true }

/-- Two registrations with distinct ids. -/
def regCalls : List RegisterCall :=
  [{ id := "i1", url := "u1", file := fA }, { id := "i2", url := "u2", file := fB }]

/-! ### Helper lemmas -/

theorem promiseAll_map_ok (p : ImageData → Option (Except String String))
    (u : ImageData → String) :
    ∀ l : List ImageData, (∀ e ∈ l, p e = some (Except.ok (u e))) →
      promiseAll (l.map p) = some (Except.ok (l.map u)) := by
  intro l
  induction l with
  | nil => intro _; simp [promiseAll]
  | cons a t ih =>
    intro hall
    have ha := hall a (by simp)
    have ht : ∀ e ∈ t, p e = some (Except.ok (u e)) :=
      fun e he => hall e (List.mem_cons_of_mem _ he)
    simp [promiseAll, ha, ih ht]

theorem promiseAll_error_of_mem :
    ∀ rs : List (Option (Except String String)),
      (∀ r ∈ rs, r.isSome = true) → (∃ r ∈ rs, isRejected r = true) →
      ∃ e, promiseAll rs = some (Except.error e) := by
  intro rs
  induction rs with
  | nil => intro _ hex; simp at hex
  | cons a t ih =>
    intro hall hex
    cases a with
    | none => have := hall none (by simp); simp at this
    | some x =>
      cases x with
      | error e => exact ⟨e, by simp [promiseAll]⟩
      | ok u =>
        have hex' : ∃ r ∈ t, isRejected r = true := by
          rcases hex with ⟨r, hr, hrej⟩
          rcases List.mem_cons.mp hr with h1 | h2
          · rw [h1] at hrej; simp [isRejected] at hrej
          · exact ⟨r, h2, hrej⟩
        have hall' : ∀ r ∈ t, r.isSome = true :=
          fun r hr => hall r (List.mem_cons_of_mem _ hr)
        rcases ih hall' hex' with ⟨e, he⟩
        exact ⟨e, by simp [promiseAll, he]⟩

theorem zip_self_map (u : ImageData → String) :
    ∀ l : List ImageData,
      (l.zip (l.map u)).map (fun p => { p.1 with processedUrl := some p.2 }) =
        l.map (fun e => { e with processedUrl := some (u e) }) := by
  intro l
  induction l with
  | nil => simp
  | cons a t ih => simp [ih]

theorem loadImage_images (id url : String) (f : SourceFile) (s : ResizerState)
    (hdec : f.decodable = true) :
    (loadImage id url f s).images = s.images ++ [mkEntry id url f] := by
  simp only [loadImage, hdec, if_true]
  split <;> rfl

theorem registerSeq_images_map_id :
    ∀ (ps : List RegisterCall) (s : ResizerState),
      (∀ p ∈ ps, p.file.decodable = true) →
      (registerSeq ps s).images.map ImageData.id =
        s.images.map ImageData.id ++ ps.map RegisterCall.id := by
  intro ps
  induction ps with
  | nil => intro s _; simp [registerSeq]
  | cons p t ih =>
    intro s hall
    have hp := hall p (by simp)
    have ht : ∀ q ∈ t, q.file.decodable = true :=
      fun q hq => hall q (List.mem_cons_of_mem _ hq)
    have hstep := loadImage_images p.id p.url p.file s hp
    calc (registerSeq (p :: t) s).images.map ImageData.id
        = (registerSeq t (loadImage p.id p.url p.file s)).images.map ImageData.id := by
          simp [registerSeq]
      _ = (loadImage p.id p.url p.file s).images.map ImageData.id ++
            t.map RegisterCall.id := ih _ ht
      _ = s.images.map ImageData.id ++ (p :: t).map RegisterCall.id := by
          simp [hstep, mkEntry]

/-! ### Claims -/

/-- C1: for every non-empty registry whose entries all transcode successfully,
`processAllImages` resolves with every entry's `processedUrl` populated, each
entry updated in place (all other fields kept), and registry order preserved:
the final registry is exactly the input registry mapped entrywise, so entry `i`
of the result is entry `i` of the input carrying its artifact. -/
theorem c1_processAll_full_success (td : String → ℚ → Canvas → Option String)
    (ctxOk : Bool) (loads : ImageData → Bool) (s : ResizerState) (u : ImageData → String)
    (hne : s.images ≠ [])
    (hall : ∀ e ∈ s.images, processImage td ctxOk loads s e = some (Except.ok (u e))) :
    processAllImages td ctxOk loads s =
      some { finalState :=
               { s with
                   images := s.images.map (fun e => { e with processedUrl := some (u e) })
                   processing := false }
             started := true
             alerted := false } ∧
    (s.images.map (fun e => { e with processedUrl := some (u e) })).length =
      s.images.length ∧
    ∀ i : Nat,
      (s.images.map (fun e => { e with processedUrl := some (u e) }))[i]? =
        (s.images[i]?).map (fun e => { e with processedUrl := some (u e) }) := by
  have hpe : s.images.isEmpty = false := by
    cases himg : s.images with
    | nil => exact absurd himg hne
    | cons a t => simp [himg]
  have h1 := promiseAll_map_ok (processImage td ctxOk loads s) u s.images hall
  have h2 := zip_self_map u s.images
  refine ⟨?_, by simp, fun i => by simp⟩
  simp [processAllImages, hpe, h1, h2]

/-- Witness for C1: three valid entries all transcode; the batch resolves with
all three entries carrying their artifact, in order. -/
theorem c1_witness :
    processAllImages tdOk true (fun _ => true) exSuccess =
      some { finalState :=
               { exSuccess with
                   images := exSuccess.images.map
                     (fun e => { e with processedUrl := some ("image/jpeg;" ++ e.url) })
                   processing := false }
             started := true
             alerted := false } :=
  (c1_processAll_full_success tdOk true (fun _ => true) exSuccess
    (fun e => "image/jpeg;" ++ e.url) (by decide) (by decide)).1

/-- C2: for every batch in which every per-entry promise settles and at least
one entry's transcode rejects, `processAllImages` settles normally (the
rejection is caught, no unhandled error) and reports a single aggregate
failure: the one `alert`, with the registry left unchanged and `processing`
cleared — even when other entries of the same batch transcoded successfully. -/
theorem c2_processAll_aggregate_failure (td : String → ℚ → Canvas → Option String)
    (ctxOk : Bool) (loads : ImageData → Bool) (s : ResizerState)
    (hsettle : ∀ e ∈ s.images, (processImage td ctxOk loads s e).isSome = true)
    (hfail : ∃ e ∈ s.images, isRejected (processImage td ctxOk loads s e) = true) :
    processAllImages td ctxOk loads s =
      some { finalState := { s with processing := false }, started := true, alerted := true } := by
  rcases hfail with ⟨e0, he0, hrej0⟩
  have hpe : s.images.isEmpty = false := by
    cases himg : s.images with
    | nil => rw [himg] at he0; simp at he0
    | cons a t => simp [himg]
  have hallm : ∀ r ∈ s.images.map (processImage td ctxOk loads s), r.isSome = true := by
    intro r hr
    rcases List.mem_map.mp hr with ⟨e, he, hre⟩
    rw [← hre]; exact hsettle e he
  have hexm : ∃ r ∈ s.images.map (processImage td ctxOk loads s), isRejected r = true :=
    ⟨_, List.mem_map_of_mem _ he0, hrej0⟩
  rcases promiseAll_error_of_mem _ hallm hexm with ⟨e, he⟩
  simp [processAllImages, hpe, he]

/-- Witness for C2: one entry whose source fails to re-decode mixed with two
valid ones — the batch settles with the single aggregate failure alert and no
state change beyond clearing the in-flight flag. -/
theorem c2_witness :
    processAllImages tdOk true (fun e => e.url != "bad") exThree =
      some { finalState := { exThree with processing := false }
             started := true
             alerted := true } :=
  c2_processAll_aggregate_failure tdOk true (fun e => e.url != "bad") exThree
    (by decide) (by decide)

/-- Counterexample to C3 as stated: with a previous batch still unsettled
(`processing = true`), a direct call to `processAllImages` is neither rejected
nor a no-op — it fires a second batch of transcodes (`started = true`). -/
theorem c3_counterexample :
    exBatch.processing = true ∧
    (processAllImages tdOk true (fun _ => true) exBatch).map BatchRun.started = some true := by
  constructor
  · rfl
  · decide

/-- C3 (amended): the re-entrancy guard lives at the invocation boundary, not
in `processAllImages` itself: the process button is rendered disabled while
`processing` is true, so a click while a previous batch is unsettled fires no
handler — no second batch is started and the state is untouched.  A direct call
to `processAllImages` has no such guard (see the counterexample). -/
theorem c3_button_click_no_reentry (td : String → ℚ → Canvas → Option String)
    (ctxOk : Bool) (loads : ImageData → Bool) (s : ResizerState)
    (h : s.processing = true) :
    processButtonClick td ctxOk loads s =
      some { finalState := s, started := false, alerted := false } := by
  simp [processButtonClick, h]

/-- Witness for C3 (amended): clicking the process button while a batch is in
flight changes nothing. -/
theorem c3_witness :
    processButtonClick tdOk true (fun _ => true) exBatch =
      some { finalState := exBatch, started := false, alerted := false } :=
  c3_button_click_no_reentry tdOk true (fun _ => true) exBatch rfl

/-- C4: with aspect lock on and a non-empty registry, `handleWidthChange w`
stores `w` and recomputes `targetHeight = round(w × referenceHeight /
referenceWidth)` from the first registry entry, rounding half up
(`jsRound x = ⌊x + 1/2⌋`); `handleHeightChange` is symmetric; in particular,
with an 800×600 reference, `handleWidthChange 400` yields height 300 and a
subsequent `handleHeightChange 150` yields width 200. -/
theorem c4_aspect_lock_recompute (s : ResizerState) (w h : Int)
    (firstImage : ImageData) (rest : List ImageData)
    (himg : s.images = firstImage :: rest) (hlock : s.maintainAspectRatio = true) :
    ((handleWidthChange s w).newWidth = w ∧
      (handleWidthChange s w).newHeight =
        jsRound ((w : ℚ) * (firstImage.height : ℚ) / (firstImage.width : ℚ)) ∧
      (handleHeightChange s h).newHeight = h ∧
      (handleHeightChange s h).newWidth =
        jsRound ((h : ℚ) * (firstImage.width : ℚ) / (firstImage.height : ℚ))) ∧
    (handleWidthChange exAspect 400).newHeight = 300 ∧
    (handleHeightChange (handleWidthChange exAspect 400) 150).newWidth = 200 := by
  refine ⟨⟨?_, ?_, ?_, ?_⟩, ?_, ?_⟩
  · simp [handleWidthChange, himg, hlock]
  · simp [handleWidthChange, himg, hlock, mul_div_assoc]
  · simp [handleHeightChange, himg, hlock]
  · simp [handleHeightChange, himg, hlock, mul_div_assoc]
  · simp [handleWidthChange, exAspect, refEntry, initialState, jsRound]
    norm_num
  · simp [handleWidthChange, handleHeightChange, exAspect, refEntry, initialState, jsRound]
    norm_num

/-- Witness for C4: the aspect-lock recomputation at the 800×600 reference,
with the rounded value evaluated. -/
theorem c4_witness :
    (handleWidthChange exAspect 400).newHeight =
      jsRound ((400 : ℚ) * ((refEntry.height : ℚ)) / (refEntry.width : ℚ)) ∧
    (handleWidthChange exAspect 400).newHeight = 300 :=
  ⟨((c4_aspect_lock_recompute exAspect 400 150 refEntry [] rfl rfl).1).2.1,
   ((c4_aspect_lock_recompute exAspect 400 150 refEntry [] rfl rfl).2).1⟩

/-- C5: the quality control is a range input with `min="10"` and `max="100"`,
so for every input `q` the stored quality is `q` clamped to `[10, 100]`; in
particular input 5 stores 10 and input 150 stores 100. -/
theorem c5_quality_clamped (s : ResizerState) (q : Int) :
    (setQualityFromRange s q).quality = max 10 (min 100 q) ∧
    10 ≤ (setQualityFromRange s q).quality ∧
    (setQualityFromRange s q).quality ≤ 100 ∧
    (setQualityFromRange s 5).quality = 10 ∧
    (setQualityFromRange s 150).quality = 100 := by
  refine ⟨rfl, ?_, ?_, ?_, ?_⟩ <;> (simp [setQualityFromRange]; try omega)

/-- Counterexample to C6 as stated: `handleWidthChange 0` (a non-positive
input) does not leave the configuration unchanged — it stores width 0 over the
configured 100; `handleHeightChange 0` likewise stores height 0 over 50. -/
theorem c6_counterexample :
    exW.newWidth = 100 ∧ exW.newHeight = 50 ∧
    (handleWidthChange exW 0).newWidth = 0 ∧
    handleWidthChange exW 0 ≠ exW ∧
    (handleHeightChange exW 0).newHeight = 0 ∧
    handleHeightChange exW 0 ≠ exW := by
  decide

/-- C6 (amended): the dimension handlers perform no validation: for every
input, including non-positive ones, `handleWidthChange w` stores `w` as the
target width (and `handleHeightChange h` stores `h` as the target height)
without touching the registry and without throwing — the call is total, but it
is not a no-op on non-positive input. -/
theorem c6_no_validation (s : ResizerState) (w : Int) (_hw : w ≤ 0) :
    (handleWidthChange s w).newWidth = w ∧
    (handleHeightChange s w).newHeight = w ∧
    (handleWidthChange s w).images = s.images ∧
    (handleHeightChange s w).images = s.images := by
  cases himg : s.images with
  | nil => simp [handleWidthChange, handleHeightChange, himg]
  | cons a t =>
    by_cases hl : s.maintainAspectRatio = true
    · simp [handleWidthChange, handleHeightChange, himg, hl]
    · simp [handleWidthChange, handleHeightChange, himg, hl]

/-- Witness for C6 (amended): the non-positive input 0 is stored, not
rejected. -/
theorem c6_witness :
    (0 : Int) ≤ 0 ∧
    (handleWidthChange exW 0).newWidth = 0 ∧
    (handleHeightChange exW 0).newHeight = 0 :=
  ⟨by decide,
   (c6_no_validation exW 0 (by decide)).1,
   (c6_no_validation exW 0 (by decide)).2.1⟩

/-- C7: when the `canvas.toDataURL` call for the configured target format
throws (format unsupported by the encoder) and JPEG encoding is available,
`processImage` resolves — it does not reject the entry and hence does not fail
the batch — with the artifact produced by encoding the same canvas as
`image/jpeg` at the configured quality `quality / 100`. -/
theorem c7_jpeg_fallback (td : String → ℚ → Canvas → Option String) (ctxOk : Bool)
    (loads : ImageData → Bool) (s : ResizerState) (e : ImageData) (u : String)
    (hctx : ctxOk = true) (hload : loads e = true)
    (hunsupported :
      td (formatOf s.outputFormat) (qualityValueOf s.outputFormat s.quality)
        { width := s.newWidth, height := s.newHeight, content := e.url } = none)
    (hjpeg :
      td "image/jpeg" ((s.quality : ℚ) / 100)
        { width := s.newWidth, height := s.newHeight, content := e.url } = some u) :
    processImage td ctxOk loads s e = some (Except.ok u) := by
  simp [processImage, hctx, hload, hunsupported, hjpeg]

/-- Witness for C7: an encoder without AVIF support; requesting AVIF output
yields the JPEG-encoded artifact of the same canvas, not a rejection. -/
theorem c7_witness :
    processImage tdNoAvif true (fun _ => true) exAvif refEntry =
      some (Except.ok "image/jpeg;u1") :=
  c7_jpeg_fallback tdNoAvif true (fun _ => true) exAvif refEntry "image/jpeg;u1"
    rfl rfl (by decide) (by decide)

/-- C8: with `outputFormat = "png"` the encoder is invoked at the hardwired
quality argument 1, so as long as the PNG encoding itself succeeds (it is the
format every canvas encoder must support, so the quality-dependent JPEG
fallback is unreachable), the transcode result is identical for any two
configured quality values `q1`, `q2`. -/
theorem c8_png_ignores_quality (td : String → ℚ → Canvas → Option String)
    (ctxOk : Bool) (loads : ImageData → Bool) (s : ResizerState) (e : ImageData)
    (q1 q2 : Int) (hfmt : s.outputFormat = "png")
    (hsupported :
      (td "image/png" 1
        { width := s.newWidth, height := s.newHeight, content := e.url }).isSome = true) :
    processImage td ctxOk loads { s with quality := q1 } e =
      processImage td ctxOk loads { s with quality := q2 } e := by
  rcases hu : td "image/png" 1
      { width := s.newWidth, height := s.newHeight, content := e.url } with _ | u
  · rw [hu] at hsupported
    simp at hsupported
  · simp [processImage, formatOf, qualityValueOf, hfmt, hu]

/-- Witness for C8: PNG output at qualities 10 and 95 produces the identical
artifact. -/
theorem c8_witness :
    processImage tdOk true (fun _ => true) { exPng with quality := 10 } refEntry =
      processImage tdOk true (fun _ => true) { exPng with quality := 95 } refEntry :=
  c8_png_ignores_quality tdOk true (fun _ => true) exPng refEntry 10 95 rfl (by decide)

/-- Counterexample to C9 as stated: load an 800×600 image (the configuration
is seeded), clear the registry (`resetImages` leaves the configuration alone),
then load a 400×300 image.  That second load is the first successful
registration since the last clear, yet the configuration is not re-seeded: the
target stays 800×600.  So "first registration since the last clear" is not
equivalent to the zero-sentinel condition the code tests. -/
theorem c9_counterexample :
    (resetImages (loadImage "i1" "u1" fA initialState)).images = [] ∧
    fB.decodable = true ∧ fB.width = 400 ∧ fB.height = 300 ∧
    (loadImage "i2" "u2" fB (resetImages (loadImage "i1" "u1" fA initialState))).images.length
      = 1 ∧
    (loadImage "i2" "u2" fB (resetImages (loadImage "i1" "u1" fA initialState))).newWidth
      = 800 ∧
    (loadImage "i2" "u2" fB (resetImages (loadImage "i1" "u1" fA initialState))).newHeight
      = 600 := by
  decide

/-- C9 (amended): a successful `loadImage` seeds the target dimensions from
the decoded natural size exactly when both target dimensions are still at
their zero sentinel at registration time — and otherwise leaves them alone —
while always appending the new entry.  (This is the data-model formulation;
it coincides with "first successful registration since the last clear" only
when the configuration is still unseeded, e.g. on the first registration ever,
because clearing does not reset the configuration.) -/
theorem c9_seed_iff_zero_sentinel (id url : String) (f : SourceFile) (s : ResizerState)
    (hdec : f.decodable = true) :
    (loadImage id url f s).newWidth =
      (if s.newWidth = 0 ∧ s.newHeight = 0 then f.width else s.newWidth) ∧
    (loadImage id url f s).newHeight =
      (if s.newWidth = 0 ∧ s.newHeight = 0 then f.height else s.newHeight) ∧
    (loadImage id url f s).images = s.images ++ [mkEntry id url f] := by
  simp only [loadImage, hdec, if_true]
  refine ⟨?_, ?_, ?_⟩ <;> (split <;> simp)

/-- Witness for C9 (amended): at the unseeded initial state the first load
seeds 800×600; loading into a seeded state leaves the dimensions alone. -/
theorem c9_witness :
    ((loadImage "i1" "u1" fA initialState).newWidth =
      (if initialState.newWidth = 0 ∧ initialState.newHeight = 0 then fA.width
        else initialState.newWidth) ∧
     (loadImage "i1" "u1" fA initialState).newHeight =
      (if initialState.newWidth = 0 ∧ initialState.newHeight = 0 then fA.height
        else initialState.newHeight) ∧
     (loadImage "i1" "u1" fA initialState).images =
       initialState.images ++ [mkEntry "i1" "u1" fA]) ∧
    (loadImage "i1" "u1" fA initialState).newWidth = 800 :=
  ⟨c9_seed_iff_zero_sentinel "i1" "u1" fA initialState (by decide), by decide⟩

/-- C10: registering a sequence of decodable files via `loadImage`, with the
allocated ids pairwise distinct, produces a registry whose iteration order is
exactly the registration order (the id sequence of the registry equals the id
sequence of the calls) and whose entry ids are unique.  (The source allocates
ids from `Date.now()` plus a 9-character random suffix; the allocator is
abstracted here as the supplied id of each call, and its outputs are assumed
distinct — the generator is probabilistic, not provably collision-free.) -/
theorem c10_register_order_and_unique_ids (ps : List RegisterCall)
    (hdec : ∀ p ∈ ps, p.file.decodable = true)
    (hids : (ps.map RegisterCall.id).Nodup) :
    (registerSeq ps initialState).images.map ImageData.id = ps.map RegisterCall.id ∧
    ((registerSeq ps initialState).images.map ImageData.id).Nodup := by
  have h := registerSeq_images_map_id ps initialState hdec
  simp only [initialState, List.map_nil, List.nil_append] at h
  exact ⟨h, h ▸ hids⟩

/-- Witness for C10: two registrations with distinct ids yield the registry
`["i1", "i2"]`, in order and duplicate-free. -/
theorem c10_witness :
    (registerSeq regCalls initialState).images.map ImageData.id =
      regCalls.map RegisterCall.id ∧
    ((registerSeq regCalls initialState).images.map ImageData.id).Nodup :=
  c10_register_order_and_unique_ids regCalls (by decide) (by decide)

end ImageResizer
